import Mathlib

/-!
Shallow embedding of the round state machine, clue composer and
multiple-choice option builder of `guess-animal-gradio.py`, together with
theorems checking the specification claims about them.

Randomness (`df.sample`, `random.sample`, `random.shuffle`) is modelled
relationally: a definition `..._spec`/`..._support` describes exactly the
set of results the random primitive can produce.  Everything else is
executable.
-/

namespace GuessAnimal

/-- Python `str.strip()`: remove leading and trailing whitespace.  Written
structurally over the character list (rather than with `String.trim`,
which is extensionally the same function on this data) so that proofs can
evaluate it. -/
def py_strip (s : String) : String :=
  ⟨((s.data.dropWhile Char.isWhitespace).reverse.dropWhile Char.isWhitespace).reverse⟩

/-- Python `str.lower()` on the ASCII data of this dataset, written
structurally over the character list so that proofs can evaluate it. -/
def py_lower (s : String) : String :=
  ⟨s.data.map Char.toLower⟩

/-- A pandas cell value: either missing (NaN/None) or a stringified value.
Numeric cells are represented by their `str(x)` rendering, which is what
`safe_str` works on before trimming. -/
inductive Val where
  | nan : Val
  | str (s : String) : Val
deriving DecidableEq, Repr

/-- `safe_str`: convert a value to a string, handling NaN/None gracefully:
NaN/None becomes `""`, any other value becomes `str(x).strip()`. -/
def safe_str : Val → String
  | .nan => ""
  | .str s => py_strip s

/-- A dataset row: a finite mapping from field (column) name to cell value,
as produced by `df.sample(1).iloc[0].to_dict()`. -/
structure Row where
  cells : List (String × Val)
deriving DecidableEq, Repr

/-- `row.get(k, d)`: Python dictionary lookup with a default for a missing
key (a present key whose value is NaN still returns NaN, not the default). -/
def Row.get (r : Row) (k : String) (d : Val) : Val :=
  match r.cells.find? (fun q => q.1 == k) with
  | some q => q.2
  | none => d

/-- Extending a row with a new binding (modelling aid used to state claims
about missing fields). -/
def Row.insert (r : Row) (k : String) (v : Val) : Row :=
  ⟨(k, v) :: r.cells⟩

/-- The Gradio chat message dict built by `as_msg`. -/
structure Msg where
  role : String
  content : String
deriving DecidableEq, Repr

/-- `as_msg`. -/
def as_msg (role content : String) : Msg := ⟨role, content⟩

/-- `MAX_CLUES`. -/
def MAX_CLUES : Nat := 3

/-- `IMAGE_FIELD`. -/
def IMAGE_FIELD : String := "Example Image"

/-- The `ANSWER_FIELD` lookup table.  The UI only ever passes one of the
four category names; for any other string the Python dict lookup would
raise `KeyError`, which is outside the modelled domain (we return `""`). -/
def ANSWER_FIELD (category : String) : String :=
  if category == "Dogs" then "Breed"
  else if category == "Cats" then "Breed"
  else if category == "Horses" then "Breed"
  else if category == "Dinosaurs" then "Common Name"
  else ""

/-- The game-state dict threaded through the Gradio handlers.  A missing
`"category"` key is modelled as `none`; the keys the source always reads
with `.get(key, default)` (`clue_index`, `round_over`, `score`, `streak`)
are plain fields whose value for the initial empty dict is the Python
default. -/
structure GameState where
  category : Option String := none
  row : Row := ⟨[]⟩
  answer : String := ""
  options : List String := []
  clue_index : Nat := 0
  round_over : Bool := false
  score : Nat := 0
  streak : Nat := 0
  img_url : Option String := none
deriving DecidableEq, Repr

/-- The initial `gr.State({})`. -/
def emptyState : GameState := {}

/-- `build_composite_clue`: build a composite clue from multiple dataset
fields.  The source reads `category` and `row` out of the state dict; they
are passed directly here.  An unrecognized category or a clue number
outside 1..3 falls through to the final sentinel return. -/
def build_composite_clue (category : String) (row : Row) (clue_number : Nat) : String :=
  if category == "Dogs" then
    if clue_number == 1 then
      "**Clue 1:** This species was bred in " ++ safe_str (row.get "Country" (.str "unknown")) ++
        ", " ++ safe_str (row.get "Continent" (.str "unknown")) ++
        " during the " ++ safe_str (row.get "Creation Time" (.str "unknown time")) ++
        " for use(s) like " ++ safe_str (row.get "Use" (.str "various purposes"))
    else if clue_number == 2 then
      "**Clue 2:** This species is often found in colors: " ++
        safe_str (row.get "Color" (.str "various colors"))
    else if clue_number == 3 then
      "**Clue 3:** Personality traits associated with the species are " ++
        safe_str (row.get "Personality Traits" (.str "varied traits"))
    else "Clue information unavailable"
  else if category == "Cats" then
    if clue_number == 1 then
      "**Clue 1:** This species was bred in " ++ safe_str (row.get "Country" (.str "unknown")) ++
        ", " ++ safe_str (row.get "Continent" (.str "unknown")) ++
        " and a tidbit of its history: " ++ safe_str (row.get "History" (.str "unknown history"))
    else if clue_number == 2 then
      "**Clue 2:** This species is often found in colors: " ++
        safe_str (row.get "Color" (.str "various colors"))
    else if clue_number == 3 then
      "**Clue 3:** Personality traits associated with the species are " ++
        safe_str (row.get "Personality" (.str "varied traits"))
    else "Clue information unavailable"
  else if category == "Horses" then
    if clue_number == 1 then
      "**Clue 1:** This species was bred in " ++ safe_str (row.get "Country" (.str "unknown")) ++
        ", " ++ safe_str (row.get "Continent" (.str "unknown")) ++
        " around " ++ safe_str (row.get "Creation" (.str "unknown time")) ++
        ". Current uses include " ++ safe_str (row.get "Uses" (.str "various uses"))
    else if clue_number == 2 then
      "**Clue 2:** This species is often found in color(s): " ++
        safe_str (row.get "Color" (.str "various colors")) ++
        ", and typical weight ranges are " ++ safe_str (row.get "Weight" (.str "unknown weight")) ++
        " & height ranges are " ++ safe_str (row.get "Height" (.str "unknown height"))
    else if clue_number == 3 then
      "**Clue 3:** Distinguishing features associated with this species are: " ++
        safe_str (row.get "Distinguishing Features" (.str "varied features"))
    else "Clue information unavailable"
  else if category == "Dinosaurs" then
    if clue_number == 1 then
      "**Clue 1:** This species was found in " ++
        safe_str (row.get "Locations Found" (.str "unknown locations")) ++
        " and is a " ++ safe_str (row.get "Eating Habits" (.str "unknown diet"))
    else if clue_number == 2 then
      "**Clue 2:** This species has size of roughly " ++
        safe_str (row.get "Rough Size" (.str "unknown size")) ++
        " and in the Clade " ++ safe_str (row.get "Clade" (.str "unknown clade"))
    else if clue_number == 3 then
      "**Clue 3:** Social behaviors associated are: " ++
        safe_str (row.get "Social Behavior" (.str "unknown behavior"))
    else "Clue information unavailable"
  else "Clue information unavailable"

/-- `next_clue_text`: generate and advance to the next composite clue;
returns the produced text together with the updated state (the source
mutates `state["clue_index"]` in place). -/
def next_clue_text (state : GameState) : String × GameState :=
  if state.clue_index ≥ MAX_CLUES then
    ("No more clues available. You can guess, click **Give up**, or start a **New Round**.",
     state)
  else
    (build_composite_clue (state.category.getD "") state.row (state.clue_index + 1),
     { state with clue_index := state.clue_index + 1 })

/-- `points_for_clues_used`: 1 clue = 3 points, 2 clues = 2 points,
otherwise 1 point. -/
def points_for_clues_used (clues_used : Nat) : Nat :=
  if clues_used ≤ 1 then 3
  else if clues_used == 2 then 2
  else 1

/-- `is_game_active`: a round is in progress iff the state has a category
and `round_over` is not set. -/
def is_game_active (state : GameState) : Bool :=
  state.category.isSome && !state.round_over

/-- `get_example_image`: extract the image URL from a row (`url or None`). -/
def get_example_image (row : Row) : Option String :=
  let url := safe_str (row.get IMAGE_FIELD (.str ""))
  if url == "" then none else some url

/-- `give_hint`: reveal the next composite clue (chat transcript and state
in, chat transcript and state out). -/
def give_hint (chat : List Msg) (state : GameState) : List Msg × GameState :=
  if !is_game_active state then
    (chat ++ [as_msg "assistant"
      (if state.category.isNone then "Pick a category and click **New Round** first."
       else "That round is already over. Click **New Round** to play again.")],
     state)
  else
    ((chat ++ [as_msg "assistant" (next_clue_text state).1]), (next_clue_text state).2)

/-- `submit_guess`: evaluate the player guess.  The source additionally
returns UI widget updates (score markdown, image/button visibility), which
belong to the presentation layer and are not part of the modelled state. -/
def submit_guess (selected : String) (chat : List Msg) (state : GameState) :
    List Msg × GameState :=
  if !is_game_active state then
    (chat ++ [as_msg "assistant"
      (if state.category.isNone then "Pick a category and click **New Round** first."
       else "That round is already over. Click **New Round** to play again.")],
     state)
  else if selected == "" then
    (chat ++ [as_msg "assistant"
      "Choose one of the options first, then click **Submit Guess**."], state)
  else
    if py_lower (safe_str (.str selected)) == py_lower (safe_str (.str state.answer)) then
      (chat ++ [as_msg "user" ("My guess: " ++ selected)] ++
        [as_msg "assistant"
          ("✅ Correct! **" ++ state.answer ++ "**\n\nPoints: **+" ++
            toString (points_for_clues_used (max 1 state.clue_index)) ++
            "** (you used " ++ toString (max 1 state.clue_index) ++
            " clue(s))\n\nClick **New Round** to play again.")],
       { state with
          score := state.score + points_for_clues_used (max 1 state.clue_index),
          streak := state.streak + 1,
          round_over := true })
    else
      (chat ++ [as_msg "user" ("My guess: " ++ selected)] ++
        [as_msg "assistant" "Not quite. Click **Hint** for another clue, or guess again."],
       { state with streak := 0 })

/-- `give_up`: reveal the answer without awarding points.  UI widget
updates are presentation-layer and not modelled. -/
def give_up (chat : List Msg) (state : GameState) : List Msg × GameState :=
  if !is_game_active state then
    (chat ++ [as_msg "assistant"
      (if state.category.isNone then "Pick a category and click **Start / New Round** first."
       else "That round is already over. Click **New Round** to play again.")],
     state)
  else
    (chat ++ [as_msg "assistant"
      ("All good — the answer was **" ++ state.answer ++
        "**.\n\nClick **New Round** when you\x27re ready.")],
     { state with round_over := true, streak := 0 })

/-- The distractor candidate list computed inside `make_options`: the
answer column with NaN dropped (`dropna`), each remaining value passed
through `safe_str`, and entries that are empty or case-insensitively equal
to the correct answer filtered out.  Note the source does not deduplicate
this list. -/
def option_candidates (deck : List Row) (answer_col correct_answer : String) : List String :=
  (((deck.map (fun r => r.get answer_col .nan)).filter (fun v => v != Val.nan)).map
      safe_str).filter
    (fun c => (c != "") && (py_lower c != py_lower correct_answer))

/-- The input-output relation of `make_options` (with `n_options = 4`, its
only call site): `random.sample(candidates, min(3, len(candidates)))`
draws entries at distinct positions of the candidate list — i.e. the draw
is a permutation of a sublist — then the correct answer is prepended and
`random.shuffle` permutes the combined list. -/
def make_options_spec (deck : List Row) (answer_col correct_answer : String)
    (options : List String) : Prop :=
  ∃ distractors : List String,
    distractors.Subperm (option_candidates deck answer_col correct_answer) ∧
    distractors.length = min (4 - 1) (option_candidates deck answer_col correct_answer).length ∧
    options.Perm (correct_answer :: distractors)

/-- The support of `pick_round_row`: after `df.dropna(subset=[answer_col])`
a uniform `df.sample(1)` can return exactly the rows whose answer cell is
not NaN.  (Uniformity of the distribution is not expressible in this
embedding; the support is what the claims are checked against.) -/
def pick_round_row_support (deck : List Row) (answer_col : String) (row : Row) : Prop :=
  row ∈ deck ∧ row.get answer_col .nan ≠ Val.nan

/-- The input-output relation of `start_round`, restricted to the game
state and the first clue text (the remaining outputs are UI widget
updates).  `result` is the new state — after the first clue has advanced
`clue_index` from 0 to 1 via `next_clue_text` — paired with that first
clue. -/
def start_round_rel (deck : List Row) (category : String) (prior : GameState)
    (result : GameState × String) : Prop :=
  ∃ row options,
    pick_round_row_support deck (ANSWER_FIELD category) row ∧
    make_options_spec deck (ANSWER_FIELD category)
      (safe_str (row.get (ANSWER_FIELD category) (.str ""))) options ∧
    result =
      (let s0 : GameState :=
        { category := some category, row := row,
          answer := safe_str (row.get (ANSWER_FIELD category) (.str "")),
          options := options, clue_index := 0, round_over := false,
          score := prior.score, streak := prior.streak,
          img_url := get_example_image row }
       ((next_clue_text s0).2, (next_clue_text s0).1))

/-- One `give_hint` call viewed as a state transformer.  The transcript
argument does not influence the state transition (`give_hint` only appends
to whatever transcript it is given), so `[]` is passed. -/
def hint_step (s : GameState) : GameState := (give_hint [] s).2

/-- The transcript produced by one `give_hint` call on an empty incoming
transcript. -/
def hint_msgs (s : GameState) : List Msg := (give_hint [] s).1

/-- `n` successive `give_hint` calls viewed as a state transformer. -/
def hint_iter : Nat → GameState → GameState
  | 0, s => s
  | n + 1, s => hint_iter n (hint_step s)

/-- A user action on a round: reveal a hint, submit a guess, or give up. -/
inductive Op where
  | hint : Op
  | guess (selected : String) : Op
  | giveUp : Op

/-- The state transformation of one user action (the chat transcript does
not influence any state transition). -/
def step : Op → GameState → GameState
  | .hint, s => (give_hint [] s).2
  | .guess selected, s => (submit_guess selected [] s).2
  | .giveUp, s => (give_up [] s).2

/-- Run a sequence of user actions from a state. -/
def run : List Op → GameState → GameState
  | [], s => s
  | op :: ops, s => run ops (step op s)

/-- The (field, placeholder) pairs of each clue template: the defaults the
source passes to `row.get` for each field it substitutes.  Empty for an
unrecognized category or an out-of-range clue number. -/
def field_placeholders (category : String) (clue_number : Nat) : List (String × String) :=
  if category == "Dogs" then
    if clue_number == 1 then
      [("Country", "unknown"), ("Continent", "unknown"),
       ("Creation Time", "unknown time"), ("Use", "various purposes")]
    else if clue_number == 2 then [("Color", "various colors")]
    else if clue_number == 3 then [("Personality Traits", "varied traits")]
    else []
  else if category == "Cats" then
    if clue_number == 1 then
      [("Country", "unknown"), ("Continent", "unknown"), ("History", "unknown history")]
    else if clue_number == 2 then [("Color", "various colors")]
    else if clue_number == 3 then [("Personality", "varied traits")]
    else []
  else if category == "Horses" then
    if clue_number == 1 then
      [("Country", "unknown"), ("Continent", "unknown"),
       ("Creation", "unknown time"), ("Uses", "various uses")]
    else if clue_number == 2 then
      [("Color", "various colors"), ("Weight", "unknown weight"), ("Height", "unknown height")]
    else if clue_number == 3 then [("Distinguishing Features", "varied features")]
    else []
  else if category == "Dinosaurs" then
    if clue_number == 1 then
      [("Locations Found", "unknown locations"), ("Eating Habits", "unknown diet")]
    else if clue_number == 2 then
      [("Rough Size", "unknown size"), ("Clade", "unknown clade")]
    else if clue_number == 3 then [("Social Behavior", "unknown behavior")]
    else []
  else []

/-- Fixture: a freshly started active round (one clue revealed). -/
def active_state : GameState :=
  { category := some "Dogs", row := ⟨[("Breed", Val.str "Beagle")]⟩, answer := "Beagle",
    options := ["Beagle", "Pug"], clue_index := 1, round_over := false,
    score := 0, streak := 0, img_url := none }

/-- Fixture: a finished round. -/
def over_state : GameState :=
  { category := some "Dogs", row := ⟨[("Breed", Val.str "Beagle")]⟩, answer := "Beagle",
    options := ["Beagle", "Pug"], clue_index := 2, round_over := true,
    score := 3, streak := 1, img_url := none }

/-- Fixture: a Dogs deck in which the distractor value "Pug" occurs twice. -/
def deck_dup : List Row :=
  [⟨[("Breed", Val.str "Beagle")]⟩, ⟨[("Breed", Val.str "Pug")]⟩, ⟨[("Breed", Val.str "Pug")]⟩]

/-- Fixture: a started state for `deck_dup` in which the Beagle row was
sampled and both Pug entries were drawn as distractors. -/
def state_dup : GameState :=
  { category := some "Dogs", row := ⟨[("Breed", Val.str "Beagle")]⟩, answer := "Beagle",
    options := ["Beagle", "Pug", "Pug"], clue_index := 1, round_over := false,
    score := 0, streak := 0, img_url := none }

/-- Fixture: a Dogs deck whose single row has a whitespace-only answer cell
(a non-NaN string, so `dropna` keeps the row). -/
def deck_blank : List Row := [⟨[("Breed", Val.str " ")]⟩]

/-- Fixture: the started state for `deck_blank`: the derived answer is the
empty string. -/
def state_blank : GameState :=
  { category := some "Dogs", row := ⟨[("Breed", Val.str " ")]⟩, answer := "",
    options := [""], clue_index := 1, round_over := false,
    score := 0, streak := 0, img_url := none }

/-- The composite Dogs clue 1 for a row providing none of the template
fields. -/
def all_defaults_dogs_clue1 : String :=
  "**Clue 1:** This species was bred in unknown, unknown during the unknown time for use(s) like various purposes"

/-! ## Theorems -/

/-- Unfolding of `is_game_active`. -/
theorem active_fields {s : GameState} (h : is_game_active s = true) :
    s.category.isSome = true ∧ s.round_over = false := by
  simpa [is_game_active] using h

/-- A key absent from a row makes `row.get` return the default. -/
theorem row_get_eq_default {r : Row} {k : String} {d : Val}
    (h : r.cells.find? (fun q => q.1 == k) = none) : r.get k d = d := by
  simp [Row.get, h]

/-- When the looked-up cell is not NaN, the default passed to `row.get` is
irrelevant. -/
theorem row_get_default_irrel {r : Row} {k : String} (d : Val)
    (h : r.get k .nan ≠ Val.nan) : r.get k d = r.get k .nan := by
  unfold Row.get at h ⊢
  cases hf : r.cells.find? (fun q => q.1 == k) with
  | none => rw [hf] at h; exact absurd rfl h
  | some q => rfl

/-- C2: on an active round, a non-empty guess that case-insensitively
equals the answer is scored with `clues_used = max 1 clue_index`; the
points are 3 for 1 clue used, 2 for 2, and 1 for 3 or more; the score
grows by exactly that many points, the streak by exactly one, and the
round ends. -/
theorem C2_correct_guess_scoring (selected : String) (chat : List Msg) (s : GameState)
    (hactive : is_game_active s = true) (hsel : selected ≠ "")
    (hmatch : py_lower (safe_str (.str selected)) = py_lower (safe_str (.str s.answer))) :
    (submit_guess selected chat s).2.score
        = s.score + points_for_clues_used (max 1 s.clue_index) ∧
    (submit_guess selected chat s).2.streak = s.streak + 1 ∧
    (submit_guess selected chat s).2.round_over = true ∧
    (max 1 s.clue_index = 1 → points_for_clues_used (max 1 s.clue_index) = 3) ∧
    (max 1 s.clue_index = 2 → points_for_clues_used (max 1 s.clue_index) = 2) ∧
    (3 ≤ max 1 s.clue_index → points_for_clues_used (max 1 s.clue_index) = 1) := by
  have hsg : (submit_guess selected chat s).2 =
      { s with score := s.score + points_for_clues_used (max 1 s.clue_index),
               streak := s.streak + 1, round_over := true } := by
    simp [submit_guess, hactive, hsel, hmatch]
  refine ⟨by rw [hsg], by rw [hsg], by rw [hsg], ?_, ?_, ?_⟩
  · intro h; rw [h]; decide
  · intro h; rw [h]; decide
  · intro h
    have h1 : ¬ max 1 s.clue_index ≤ 1 := by omega
    have h2 : ¬ max 1 s.clue_index = 2 := by omega
    simp [points_for_clues_used, h1, h2]

/-- Witness for C2 at a concrete started round with one clue revealed. -/
theorem C2_correct_guess_scoring_witness :
    is_game_active active_state = true ∧ ("beagle" : String) ≠ "" ∧
    py_lower (safe_str (.str "beagle")) = py_lower (safe_str (.str active_state.answer)) ∧
    ((submit_guess "beagle" [] active_state).2.score
        = active_state.score + points_for_clues_used (max 1 active_state.clue_index) ∧
     (submit_guess "beagle" [] active_state).2.streak = active_state.streak + 1 ∧
     (submit_guess "beagle" [] active_state).2.round_over = true ∧
     (max 1 active_state.clue_index = 1 →
        points_for_clues_used (max 1 active_state.clue_index) = 3) ∧
     (max 1 active_state.clue_index = 2 →
        points_for_clues_used (max 1 active_state.clue_index) = 2) ∧
     (3 ≤ max 1 active_state.clue_index →
        points_for_clues_used (max 1 active_state.clue_index) = 1)) :=
  ⟨by decide, by decide, by decide,
   C2_correct_guess_scoring "beagle" [] active_state (by decide) (by decide) (by decide)⟩

/-- C7: on an active round, a non-empty wrong guess never changes the
score, always resets the streak to 0, and leaves the round running. -/
theorem C7_wrong_guess_state (selected : String) (chat : List Msg) (s : GameState)
    (hactive : is_game_active s = true) (hsel : selected ≠ "")
    (hmis : py_lower (safe_str (.str selected)) ≠ py_lower (safe_str (.str s.answer))) :
    (submit_guess selected chat s).2.score = s.score ∧
    (submit_guess selected chat s).2.streak = 0 ∧
    (submit_guess selected chat s).2.round_over = false := by
  have hro : s.round_over = false := (active_fields hactive).2
  have hsg : (submit_guess selected chat s).2 = { s with streak := 0 } := by
    simp [submit_guess, hactive, hsel, hmis]
  rw [hsg]
  exact ⟨rfl, rfl, hro⟩

/-- Witness for C7 at a concrete started round and the wrong option. -/
theorem C7_wrong_guess_state_witness :
    is_game_active active_state = true ∧ ("Pug" : String) ≠ "" ∧
    py_lower (safe_str (.str "Pug")) ≠ py_lower (safe_str (.str active_state.answer)) ∧
    ((submit_guess "Pug" [] active_state).2.score = active_state.score ∧
     (submit_guess "Pug" [] active_state).2.streak = 0 ∧
     (submit_guess "Pug" [] active_state).2.round_over = false) :=
  ⟨by decide, by decide, by decide,
   C7_wrong_guess_state "Pug" [] active_state (by decide) (by decide) (by decide)⟩

/-- C10: on an active round a non-empty selection is accepted — the round
ends in the correct-guess branch — exactly when it equals the answer after
stripping surrounding whitespace and lowercasing both sides. -/
theorem C10_accept_iff_strip_lower (selected : String) (chat : List Msg) (s : GameState)
    (hactive : is_game_active s = true) (hsel : selected ≠ "") :
    (submit_guess selected chat s).2.round_over = true ↔
      py_lower (py_strip selected) = py_lower (py_strip s.answer) := by
  have hro : s.round_over = false := (active_fields hactive).2
  by_cases h : py_lower (py_strip selected) = py_lower (py_strip s.answer)
  · have hsg : (submit_guess selected chat s).2.round_over = true := by
      simp [submit_guess, hactive, hsel, safe_str, h]
    simp [hsg, h]
  · have hsg : (submit_guess selected chat s).2.round_over = s.round_over := by
      simp [submit_guess, hactive, hsel, safe_str, h]
    rw [hsg, hro]
    simp [h]

/-- Witness for C10: the correct answer surrounded by extra whitespace is
accepted. -/
theorem C10_accept_iff_strip_lower_witness :
    is_game_active active_state = true ∧ ("  Beagle  " : String) ≠ "" ∧
    ((submit_guess "  Beagle  " [] active_state).2.round_over = true ↔
      py_lower (py_strip "  Beagle  ") = py_lower (py_strip active_state.answer)) :=
  ⟨by decide, by decide,
   C10_accept_iff_strip_lower "  Beagle  " [] active_state (by decide) (by decide)⟩

/-- C6: once `round_over` is true, `hint`, `guess` and `give up` leave the
whole state unchanged and only append one guidance message to the chat
transcript. -/
theorem C6_round_over_noop (selected : String) (chat : List Msg) (s : GameState)
    (hover : s.round_over = true) :
    (give_hint chat s).2 = s ∧
    (∃ m, (give_hint chat s).1 = chat ++ [as_msg "assistant" m]) ∧
    (submit_guess selected chat s).2 = s ∧
    (∃ m, (submit_guess selected chat s).1 = chat ++ [as_msg "assistant" m]) ∧
    (give_up chat s).2 = s ∧
    (∃ m, (give_up chat s).1 = chat ++ [as_msg "assistant" m]) := by
  have hina : is_game_active s = false := by simp [is_game_active, hover]
  refine ⟨?_, ?_, ?_, ?_, ?_, ?_⟩
  · simp [give_hint, hina]
  · exact ⟨if s.category.isNone then "Pick a category and click **New Round** first."
      else "That round is already over. Click **New Round** to play again.",
      by simp [give_hint, hina]⟩
  · simp [submit_guess, hina]
  · exact ⟨if s.category.isNone then "Pick a category and click **New Round** first."
      else "That round is already over. Click **New Round** to play again.",
      by simp [submit_guess, hina]⟩
  · simp [give_up, hina]
  · exact ⟨if s.category.isNone then "Pick a category and click **Start / New Round** first."
      else "That round is already over. Click **New Round** to play again.",
      by simp [give_up, hina]⟩

/-- Witness for C6 at a concrete finished round. -/
theorem C6_round_over_noop_witness :
    over_state.round_over = true ∧
    ((give_hint [] over_state).2 = over_state ∧
     (∃ m, (give_hint [] over_state).1 = [] ++ [as_msg "assistant" m]) ∧
     (submit_guess "Pug" [] over_state).2 = over_state ∧
     (∃ m, (submit_guess "Pug" [] over_state).1 = [] ++ [as_msg "assistant" m]) ∧
     (give_up [] over_state).2 = over_state ∧
     (∃ m, (give_up [] over_state).1 = [] ++ [as_msg "assistant" m])) :=
  ⟨by decide, C6_round_over_noop "Pug" [] over_state (by decide)⟩

/-- C3: from an active round on which no clue has yet been revealed, four
successive hint calls return composed clue texts with clue numbers 1, 2, 3
— `clue_index` growing by exactly 1 each time — and then the fixed
no-more-clues message, with `clue_index` left at 3 by call 4 and by every
later hint call. -/
theorem C3_hint_progression (s0 : GameState)
    (hactive : is_game_active s0 = true) (h0 : s0.clue_index = 0) :
    hint_msgs s0 =
      [as_msg "assistant" (build_composite_clue (s0.category.getD "") s0.row 1)] ∧
    (hint_step s0).clue_index = 1 ∧
    hint_msgs (hint_step s0) =
      [as_msg "assistant" (build_composite_clue (s0.category.getD "") s0.row 2)] ∧
    (hint_step (hint_step s0)).clue_index = 2 ∧
    hint_msgs (hint_step (hint_step s0)) =
      [as_msg "assistant" (build_composite_clue (s0.category.getD "") s0.row 3)] ∧
    (hint_step (hint_step (hint_step s0))).clue_index = 3 ∧
    hint_msgs (hint_step (hint_step (hint_step s0))) =
      [as_msg "assistant"
        "No more clues available. You can guess, click **Give up**, or start a **New Round**."] ∧
    ∀ n, hint_iter n (hint_step (hint_step (hint_step s0))) =
      hint_step (hint_step (hint_step s0)) := by
  have hcat : s0.category.isSome = true := (active_fields hactive).1
  have hro : s0.round_over = false := (active_fields hactive).2
  have hs1 : hint_step s0 = { s0 with clue_index := 1 } := by
    simp [hint_step, give_hint, hactive, next_clue_text, h0, MAX_CLUES]
  have hm1 : hint_msgs s0 =
      [as_msg "assistant" (build_composite_clue (s0.category.getD "") s0.row 1)] := by
    simp [hint_msgs, give_hint, hactive, next_clue_text, h0, MAX_CLUES]
  have hact1 : is_game_active { s0 with clue_index := 1 } = true := by
    simp [is_game_active, hcat, hro]
  have hs2 : hint_step (hint_step s0) = { s0 with clue_index := 2 } := by
    rw [hs1]
    simp [hint_step, give_hint, hact1, next_clue_text, MAX_CLUES]
  have hm2 : hint_msgs (hint_step s0) =
      [as_msg "assistant" (build_composite_clue (s0.category.getD "") s0.row 2)] := by
    rw [hs1]
    simp [hint_msgs, give_hint, hact1, next_clue_text, MAX_CLUES]
  have hact2 : is_game_active { s0 with clue_index := 2 } = true := by
    simp [is_game_active, hcat, hro]
  have hs3 : hint_step (hint_step (hint_step s0)) = { s0 with clue_index := 3 } := by
    rw [hs2]
    simp [hint_step, give_hint, hact2, next_clue_text, MAX_CLUES]
  have hm3 : hint_msgs (hint_step (hint_step s0)) =
      [as_msg "assistant" (build_composite_clue (s0.category.getD "") s0.row 3)] := by
    rw [hs2]
    simp [hint_msgs, give_hint, hact2, next_clue_text, MAX_CLUES]
  have hact3 : is_game_active { s0 with clue_index := 3 } = true := by
    simp [is_game_active, hcat, hro]
  have hm4 : hint_msgs (hint_step (hint_step (hint_step s0))) =
      [as_msg "assistant"
        "No more clues available. You can guess, click **Give up**, or start a **New Round**."] := by
    rw [hs3]
    simp [hint_msgs, give_hint, hact3, next_clue_text, MAX_CLUES]
  have hfix : hint_step { s0 with clue_index := 3 } = { s0 with clue_index := 3 } := by
    simp [hint_step, give_hint, hact3, next_clue_text, MAX_CLUES]
  have hiter : ∀ n, hint_iter n { s0 with clue_index := 3 } = { s0 with clue_index := 3 } := by
    intro n
    induction n with
    | zero => rfl
    | succ n ih => simp [hint_iter, hfix, ih]
  refine ⟨hm1, by rw [hs1], hm2, by rw [hs2], hm3, by rw [hs3], hm4, ?_⟩
  intro n
  rw [hs3, hiter n]

/-- Witness for C3 at a concrete fresh active round. -/
theorem C3_hint_progression_witness :
    is_game_active { active_state with clue_index := 0 } = true ∧
    ({ active_state with clue_index := 0 } : GameState).clue_index = 0 ∧
    (hint_msgs { active_state with clue_index := 0 } =
      [as_msg "assistant"
        (build_composite_clue (({ active_state with clue_index := 0 } : GameState).category.getD "")
          ({ active_state with clue_index := 0 } : GameState).row 1)] ∧
    (hint_step { active_state with clue_index := 0 }).clue_index = 1 ∧
    hint_msgs (hint_step { active_state with clue_index := 0 }) =
      [as_msg "assistant"
        (build_composite_clue (({ active_state with clue_index := 0 } : GameState).category.getD "")
          ({ active_state with clue_index := 0 } : GameState).row 2)] ∧
    (hint_step (hint_step { active_state with clue_index := 0 })).clue_index = 2 ∧
    hint_msgs (hint_step (hint_step { active_state with clue_index := 0 })) =
      [as_msg "assistant"
        (build_composite_clue (({ active_state with clue_index := 0 } : GameState).category.getD "")
          ({ active_state with clue_index := 0 } : GameState).row 3)] ∧
    (hint_step (hint_step (hint_step { active_state with clue_index := 0 }))).clue_index = 3 ∧
    hint_msgs (hint_step (hint_step (hint_step { active_state with clue_index := 0 }))) =
      [as_msg "assistant"
        "No more clues available. You can guess, click **Give up**, or start a **New Round**."] ∧
    ∀ n, hint_iter n (hint_step (hint_step (hint_step { active_state with clue_index := 0 }))) =
      hint_step (hint_step (hint_step { active_state with clue_index := 0 }))) :=
  ⟨by decide, rfl,
   C3_hint_progression { active_state with clue_index := 0 } (by decide) rfl⟩

/-- Each single user action preserves clue-index monotonicity and bounds
and the one-way direction of `round_over`. -/
theorem step_clue_round (op : Op) (s : GameState) :
    s.clue_index ≤ (step op s).clue_index ∧
    (step op s).clue_index ≤ max 3 s.clue_index ∧
    (s.round_over = true → (step op s).round_over = true) := by
  cases op with
  | hint =>
    by_cases h : is_game_active s = true
    · by_cases h3 : s.clue_index ≥ MAX_CLUES
      · simp [step, give_hint, h, next_clue_text, h3]
      · simp only [MAX_CLUES] at h3
        refine ⟨?_, ?_, ?_⟩ <;>
          · simp [step, give_hint, h, next_clue_text, MAX_CLUES, h3]
            try omega
    · have h' : is_game_active s = false := by simpa using h
      simp [step, give_hint, h']
  | guess selected =>
    by_cases h : is_game_active s = true
    · by_cases hsel : selected = ""
      · simp [step, submit_guess, h, hsel]
      · by_cases hm : py_lower (safe_str (.str selected)) = py_lower (safe_str (.str s.answer))
        · simp [step, submit_guess, h, hsel, hm]
        · simp [step, submit_guess, h, hsel, hm]
    · have h' : is_game_active s = false := by simpa using h
      simp [step, submit_guess, h']
  | giveUp =>
    by_cases h : is_game_active s = true
    · simp [step, give_up, h]
    · have h' : is_game_active s = false := by simpa using h
      simp [step, give_up, h']

/-- C8: along any sequence of hint/guess/give-up actions within a round,
`clue_index` never decreases and never exceeds 3, and `round_over` never
reverts from true to false. -/
theorem C8_invariants_run (ops : List Op) (s : GameState) (h3 : s.clue_index ≤ 3) :
    s.clue_index ≤ (run ops s).clue_index ∧
    (run ops s).clue_index ≤ 3 ∧
    (s.round_over = true → (run ops s).round_over = true) := by
  induction ops generalizing s with
  | nil => exact ⟨Nat.le_refl _, h3, fun h => h⟩
  | cons op ops ih =>
    have hstep := step_clue_round op s
    have h3' : (step op s).clue_index ≤ 3 := by omega
    have hrun := ih (step op s) h3'
    simp only [run]
    exact ⟨Nat.le_trans hstep.1 hrun.1, hrun.2.1, fun h => hrun.2.2 (hstep.2.2 h)⟩

/-- Witness for C8 on a concrete action sequence. -/
theorem C8_invariants_run_witness :
    active_state.clue_index ≤ 3 ∧
    (active_state.clue_index ≤ (run [Op.hint, Op.guess "Pug", Op.giveUp] active_state).clue_index ∧
     (run [Op.hint, Op.guess "Pug", Op.giveUp] active_state).clue_index ≤ 3 ∧
     (active_state.round_over = true →
       (run [Op.hint, Op.guess "Pug", Op.giveUp] active_state).round_over = true)) :=
  ⟨by decide, C8_invariants_run [Op.hint, Op.guess "Pug", Op.giveUp] active_state (by decide)⟩

/-- C9 (amended): an unrecognized category, or a recognized category with a
clue number outside 1..3, makes `build_composite_clue` return its fixed
sentinel string, which is "Clue information unavailable". -/
theorem C9_fallback_sentinel (category : String) (row : Row) (clue_number : Nat)
    (h : (category ≠ "Dogs" ∧ category ≠ "Cats" ∧ category ≠ "Horses" ∧
            category ≠ "Dinosaurs") ∨
         (clue_number ≠ 1 ∧ clue_number ≠ 2 ∧ clue_number ≠ 3)) :
    build_composite_clue category row clue_number = "Clue information unavailable" := by
  rcases h with ⟨h1, h2, h3, h4⟩ | ⟨h1, h2, h3⟩
  · simp [build_composite_clue, h1, h2, h3, h4]
  · simp only [build_composite_clue, beq_iff_eq]
    split_ifs <;> simp_all

/-- Witness for C9 at an unrecognized category. -/
theorem C9_fallback_sentinel_witness :
    ((("Birds" : String) ≠ "Dogs" ∧ ("Birds" : String) ≠ "Cats" ∧
        ("Birds" : String) ≠ "Horses" ∧ ("Birds" : String) ≠ "Dinosaurs") ∨
      ((2 : Nat) ≠ 1 ∧ (2 : Nat) ≠ 2 ∧ (2 : Nat) ≠ 3)) ∧
    build_composite_clue "Birds" ⟨[]⟩ 2 = "Clue information unavailable" :=
  ⟨Or.inl (by decide), C9_fallback_sentinel "Birds" ⟨[]⟩ 2 (Or.inl (by decide))⟩

/-- Counterexample for C9 as stated: the sentinel the code returns is the
string "Clue information unavailable", not "clue unavailable". -/
theorem C9_sentinel_counterexample :
    build_composite_clue "Birds" ⟨[]⟩ 1 = "Clue information unavailable" ∧
    build_composite_clue "Birds" ⟨[]⟩ 1 ≠ "clue unavailable" := by
  exact ⟨by decide, by decide⟩

/-- Characterization of the state and first clue a `start_round` run can
produce. -/
theorem start_round_state (deck : List Row) (category : String) (prior : GameState)
    (s1 : GameState) (clue : String)
    (hstart : start_round_rel deck category prior (s1, clue)) :
    ∃ row options,
      pick_round_row_support deck (ANSWER_FIELD category) row ∧
      make_options_spec deck (ANSWER_FIELD category)
        (safe_str (row.get (ANSWER_FIELD category) (.str ""))) options ∧
      s1 = { category := some category, row := row,
             answer := safe_str (row.get (ANSWER_FIELD category) (.str "")),
             options := options, clue_index := 1, round_over := false,
             score := prior.score, streak := prior.streak,
             img_url := get_example_image row } ∧
      clue = build_composite_clue category row 1 := by
  obtain ⟨row, options, hpick, hmake, heq⟩ := hstart
  dsimp only at heq
  injection heq with h1 h2
  refine ⟨row, options, hpick, hmake, ?_, ?_⟩
  · rw [h1]
    simp [next_clue_text, MAX_CLUES]
  · rw [h2]
    simp [next_clue_text, MAX_CLUES]

/-- C5 (amended): every started round samples a row of the category deck
whose answer cell is non-missing (not NaN); if additionally every
non-missing answer value of the deck is non-empty after trimming, the
round's derived answer string is non-empty. -/
theorem C5_start_row_support (deck : List Row) (category : String) (prior : GameState)
    (s1 : GameState) (clue : String)
    (hstart : start_round_rel deck category prior (s1, clue)) :
    s1.row ∈ deck ∧
    s1.row.get (ANSWER_FIELD category) .nan ≠ Val.nan ∧
    ((∀ r ∈ deck, r.get (ANSWER_FIELD category) .nan ≠ Val.nan →
        safe_str (r.get (ANSWER_FIELD category) .nan) ≠ "") →
      s1.answer ≠ "") := by
  obtain ⟨row, options, hpick, hmake, hs1, hclue⟩ :=
    start_round_state deck category prior s1 clue hstart
  subst hs1
  dsimp only
  refine ⟨hpick.1, hpick.2, ?_⟩
  intro hall
  rw [row_get_default_irrel (.str "") hpick.2]
  exact hall row hpick.1 hpick.2

/-- Witness for C5 on a concrete one-row deck with a clean answer value. -/
theorem C5_start_row_support_witness :
    start_round_rel [⟨[("Breed", Val.str "Beagle")]⟩] "Dogs" emptyState
      ({ category := some "Dogs", row := ⟨[("Breed", Val.str "Beagle")]⟩, answer := "Beagle",
         options := ["Beagle"], clue_index := 1, round_over := false,
         score := 0, streak := 0, img_url := none }, all_defaults_dogs_clue1) ∧
    (({ category := some "Dogs", row := ⟨[("Breed", Val.str "Beagle")]⟩, answer := "Beagle",
        options := ["Beagle"], clue_index := 1, round_over := false,
        score := 0, streak := 0, img_url := none } : GameState).row
        ∈ [(⟨[("Breed", Val.str "Beagle")]⟩ : Row)] ∧
     ({ category := some "Dogs", row := ⟨[("Breed", Val.str "Beagle")]⟩, answer := "Beagle",
        options := ["Beagle"], clue_index := 1, round_over := false,
        score := 0, streak := 0, img_url := none } : GameState).row.get
        (ANSWER_FIELD "Dogs") .nan ≠ Val.nan ∧
     ((∀ r ∈ [(⟨[("Breed", Val.str "Beagle")]⟩ : Row)],
          r.get (ANSWER_FIELD "Dogs") .nan ≠ Val.nan →
          safe_str (r.get (ANSWER_FIELD "Dogs") .nan) ≠ "") →
       ({ category := some "Dogs", row := ⟨[("Breed", Val.str "Beagle")]⟩, answer := "Beagle",
          options := ["Beagle"], clue_index := 1, round_over := false,
          score := 0, streak := 0, img_url := none } : GameState).answer ≠ "")) := by
  have hrel : start_round_rel [⟨[("Breed", Val.str "Beagle")]⟩] "Dogs" emptyState
      ({ category := some "Dogs", row := ⟨[("Breed", Val.str "Beagle")]⟩, answer := "Beagle",
         options := ["Beagle"], clue_index := 1, round_over := false,
         score := 0, streak := 0, img_url := none }, all_defaults_dogs_clue1) := by
    refine ⟨⟨[("Breed", Val.str "Beagle")]⟩, ["Beagle"], ⟨?_, ?_⟩, ⟨[], ?_, ?_, ?_⟩, ?_⟩
    · decide
    · decide
    · exact List.nil_subperm
    · decide
    · decide
    · decide
  exact ⟨hrel, C5_start_row_support _ "Dogs" emptyState _ _ hrel⟩

/-- Counterexample for C5 as stated: a whitespace-only (but non-NaN)
answer cell survives `dropna`, so a started round can carry the empty
answer string. -/
theorem C5_empty_answer_counterexample :
    start_round_rel deck_blank "Dogs" emptyState (state_blank, all_defaults_dogs_clue1) ∧
    state_blank.answer = "" := by
  constructor
  · refine ⟨⟨[("Breed", Val.str " ")]⟩, [""], ⟨?_, ?_⟩, ⟨[], ?_, ?_, ?_⟩, ?_⟩
    · decide
    · decide
    · exact List.nil_subperm
    · decide
    · decide
    · decide
  · rfl

/-- C1 (amended): every started round's options list contains the
canonical-cased answer, matched case-insensitively exactly once, and has
length `min 4 (1 + number of candidate entries)`, where the candidate
entries are the non-empty non-matching answer values of the deck counted
with multiplicity; when those candidate values are pairwise distinct (so
that their count equals the number of distinct such values) the options
are the answer plus pairwise-distinct distractors none of which matches
the answer case-insensitively. -/
theorem C1_start_options (deck : List Row) (category : String) (prior : GameState)
    (s1 : GameState) (clue : String)
    (hstart : start_round_rel deck category prior (s1, clue)) :
    s1.options.countP (fun o => py_lower o == py_lower s1.answer) = 1 ∧
    s1.answer ∈ s1.options ∧
    s1.options.length =
      min 4 (1 + (option_candidates deck (ANSWER_FIELD category) s1.answer).length) ∧
    ((option_candidates deck (ANSWER_FIELD category) s1.answer).Nodup →
      s1.options.length =
        min 4 (1 + (option_candidates deck (ANSWER_FIELD category) s1.answer).dedup.length) ∧
      ∃ distractors, s1.options.Perm (s1.answer :: distractors) ∧ distractors.Nodup ∧
        ∀ d ∈ distractors, py_lower d ≠ py_lower s1.answer) := by
  obtain ⟨row, options, hpick, hmake, hs1, hclue⟩ :=
    start_round_state deck category prior s1 clue hstart
  obtain ⟨ds, hsub, hlen, hperm⟩ := hmake
  subst hs1
  dsimp only
  have hds_ne : ∀ d ∈ ds,
      py_lower d ≠ py_lower (safe_str (row.get (ANSWER_FIELD category) (.str ""))) := by
    intro d hd
    have h := List.of_mem_filter (hsub.subset hd)
    simp only [Bool.and_eq_true, bne_iff_ne] at h
    exact h.2
  have hcount : options.countP
      (fun o => py_lower o == py_lower (safe_str (row.get (ANSWER_FIELD category) (.str "")))) =
      1 := by
    rw [hperm.countP_eq, List.countP_cons]
    have h0 : ds.countP
        (fun o => py_lower o ==
          py_lower (safe_str (row.get (ANSWER_FIELD category) (.str "")))) = 0 :=
      List.countP_eq_zero.mpr (fun d hd => by simp [hds_ne d hd])
    simp [h0]
  have hlen2 : options.length =
      min 4 (1 + (option_candidates deck (ANSWER_FIELD category)
        (safe_str (row.get (ANSWER_FIELD category) (.str "")))).length) := by
    rw [hperm.length_eq, List.length_cons, hlen]
    omega
  refine ⟨hcount, hperm.mem_iff.mpr (List.mem_cons_self _ _), hlen2, ?_⟩
  intro hnd
  refine ⟨by rw [List.Nodup.dedup hnd]; exact hlen2, ds, hperm, ?_, hds_ne⟩
  obtain ⟨l, hlp, hls⟩ := hsub
  exact hlp.nodup_iff.mp (List.Nodup.sublist hls hnd)

/-- Witness for C1 on a concrete deck with three distinct answers. -/
theorem C1_start_options_witness :
    start_round_rel
      [⟨[("Breed", Val.str "Beagle")]⟩, ⟨[("Breed", Val.str "Pug")]⟩,
       ⟨[("Breed", Val.str "Husky")]⟩] "Dogs" emptyState
      ({ category := some "Dogs", row := ⟨[("Breed", Val.str "Beagle")]⟩, answer := "Beagle",
         options := ["Pug", "Beagle", "Husky"], clue_index := 1, round_over := false,
         score := 0, streak := 0, img_url := none }, all_defaults_dogs_clue1) ∧
    (let s1 : GameState :=
      { category := some "Dogs", row := ⟨[("Breed", Val.str "Beagle")]⟩, answer := "Beagle",
        options := ["Pug", "Beagle", "Husky"], clue_index := 1, round_over := false,
        score := 0, streak := 0, img_url := none }
     let deck : List Row :=
      [⟨[("Breed", Val.str "Beagle")]⟩, ⟨[("Breed", Val.str "Pug")]⟩,
       ⟨[("Breed", Val.str "Husky")]⟩]
     s1.options.countP (fun o => py_lower o == py_lower s1.answer) = 1 ∧
     s1.answer ∈ s1.options ∧
     s1.options.length =
       min 4 (1 + (option_candidates deck (ANSWER_FIELD "Dogs") s1.answer).length) ∧
     ((option_candidates deck (ANSWER_FIELD "Dogs") s1.answer).Nodup →
       s1.options.length =
         min 4 (1 + (option_candidates deck (ANSWER_FIELD "Dogs") s1.answer).dedup.length) ∧
       ∃ distractors, s1.options.Perm (s1.answer :: distractors) ∧ distractors.Nodup ∧
         ∀ d ∈ distractors, py_lower d ≠ py_lower s1.answer)) := by
  have hrel : start_round_rel
      [⟨[("Breed", Val.str "Beagle")]⟩, ⟨[("Breed", Val.str "Pug")]⟩,
       ⟨[("Breed", Val.str "Husky")]⟩] "Dogs" emptyState
      ({ category := some "Dogs", row := ⟨[("Breed", Val.str "Beagle")]⟩, answer := "Beagle",
         options := ["Pug", "Beagle", "Husky"], clue_index := 1, round_over := false,
         score := 0, streak := 0, img_url := none }, all_defaults_dogs_clue1) := by
    refine ⟨⟨[("Breed", Val.str "Beagle")]⟩, ["Pug", "Beagle", "Husky"], ⟨?_, ?_⟩,
      ⟨["Pug", "Husky"], ?_, ?_, ?_⟩, ?_⟩
    · decide
    · decide
    · have h : option_candidates
          [⟨[("Breed", Val.str "Beagle")]⟩, ⟨[("Breed", Val.str "Pug")]⟩,
           ⟨[("Breed", Val.str "Husky")]⟩] (ANSWER_FIELD "Dogs")
          (safe_str ((⟨[("Breed", Val.str "Beagle")]⟩ : Row).get (ANSWER_FIELD "Dogs")
            (.str ""))) = ["Pug", "Husky"] := by decide
      rw [h]
    · decide
    · decide
    · decide
  exact ⟨hrel, C1_start_options _ "Dogs" emptyState _ _ hrel⟩

/-- Counterexample for C1 as stated: with a duplicated answer value in the
deck, the options list is longer than
`min 4 (1 + number of distinct non-matching answers)` (and its distractors
repeat a value). -/
theorem C1_duplicate_counterexample :
    start_round_rel deck_dup "Dogs" emptyState (state_dup, all_defaults_dogs_clue1) ∧
    state_dup.options.length ≠
      min 4 (1 +
        (option_candidates deck_dup (ANSWER_FIELD "Dogs") state_dup.answer).dedup.length) := by
  constructor
  · refine ⟨⟨[("Breed", Val.str "Beagle")]⟩, ["Beagle", "Pug", "Pug"], ⟨?_, ?_⟩,
      ⟨["Pug", "Pug"], ?_, ?_, ?_⟩, ?_⟩
    · decide
    · decide
    · have h : option_candidates deck_dup (ANSWER_FIELD "Dogs")
          (safe_str ((⟨[("Breed", Val.str "Beagle")]⟩ : Row).get (ANSWER_FIELD "Dogs")
            (.str ""))) = ["Pug", "Pug"] := by decide
      rw [h]
    · decide
    · decide
    · decide
  · decide

/-- C4 (amended): the per-field placeholder of a clue template is
substituted exactly when the field key is absent from the row dict: the
clue then reads as if the field carried its (non-empty) placeholder
value.  (A key that is present with a NaN or empty value renders as an
empty slot instead — see the counterexample.) -/
theorem C4_placeholder_on_missing_key (category : String) (clue_number : Nat)
    (k p : String) (r : Row)
    (hmem : (k, p) ∈ field_placeholders category clue_number)
    (habs : r.cells.find? (fun q => q.1 == k) = none) :
    p ≠ "" ∧
    build_composite_clue category r clue_number =
      build_composite_clue category (r.insert k (.str p)) clue_number := by
  have hgetk : ∀ d, Row.get (r.insert k (.str p)) k d = .str p := by
    intro d
    simp [Row.insert, Row.get, List.find?_cons]
  have hgetne : ∀ (q : String) (d : Val), q ≠ k → Row.get (r.insert k (.str p)) q d = Row.get r q d := by
    intro q d hne
    have hkk : (k == q) = false := beq_eq_false_iff_ne.mpr (Ne.symm hne)
    simp [Row.insert, Row.get, List.find?_cons, hkk]
  by_cases hdog : category = "Dogs"
  · subst hdog
    by_cases h1 : clue_number = 1
    · subst h1
      simp only [field_placeholders] at hmem
      simp at hmem
      rcases hmem with ⟨hk, hp⟩ | ⟨hk, hp⟩ | ⟨hk, hp⟩ | ⟨hk, hp⟩ <;> subst hk <;> subst hp <;>
        exact ⟨by decide, by simp [build_composite_clue, hgetk, hgetne, row_get_eq_default habs]⟩
    · by_cases h2 : clue_number = 2
      · subst h2
        simp only [field_placeholders] at hmem
        simp at hmem
        obtain ⟨hk, hp⟩ := hmem
        subst hk; subst hp
        exact ⟨by decide, by simp [build_composite_clue, hgetk, hgetne, row_get_eq_default habs]⟩
      · by_cases h3 : clue_number = 3
        · subst h3
          simp only [field_placeholders] at hmem
          simp at hmem
          obtain ⟨hk, hp⟩ := hmem
          subst hk; subst hp
          exact ⟨by decide, by simp [build_composite_clue, hgetk, hgetne, row_get_eq_default habs]⟩
        · simp [field_placeholders, h1, h2, h3] at hmem
  · by_cases hcat : category = "Cats"
    · subst hcat
      by_cases h1 : clue_number = 1
      · subst h1
        simp only [field_placeholders] at hmem
        simp at hmem
        rcases hmem with ⟨hk, hp⟩ | ⟨hk, hp⟩ | ⟨hk, hp⟩ <;> subst hk <;> subst hp <;>
          exact ⟨by decide, by simp [build_composite_clue, hgetk, hgetne, row_get_eq_default habs]⟩
      · by_cases h2 : clue_number = 2
        · subst h2
          simp only [field_placeholders] at hmem
          simp at hmem
          obtain ⟨hk, hp⟩ := hmem
          subst hk; subst hp
          exact ⟨by decide, by simp [build_composite_clue, hgetk, hgetne, row_get_eq_default habs]⟩
        · by_cases h3 : clue_number = 3
          · subst h3
            simp only [field_placeholders] at hmem
            simp at hmem
            obtain ⟨hk, hp⟩ := hmem
            subst hk; subst hp
            exact ⟨by decide, by simp [build_composite_clue, hgetk, hgetne, row_get_eq_default habs]⟩
          · simp [field_placeholders, hdog, h1, h2, h3] at hmem
    · by_cases hhor : category = "Horses"
      · subst hhor
        by_cases h1 : clue_number = 1
        · subst h1
          simp only [field_placeholders] at hmem
          simp at hmem
          rcases hmem with ⟨hk, hp⟩ | ⟨hk, hp⟩ | ⟨hk, hp⟩ | ⟨hk, hp⟩ <;> subst hk <;> subst hp <;>
            exact ⟨by decide, by simp [build_composite_clue, hgetk, hgetne, row_get_eq_default habs]⟩
        · by_cases h2 : clue_number = 2
          · subst h2
            simp only [field_placeholders] at hmem
            simp at hmem
            rcases hmem with ⟨hk, hp⟩ | ⟨hk, hp⟩ | ⟨hk, hp⟩ <;> subst hk <;> subst hp <;>
              exact ⟨by decide, by simp [build_composite_clue, hgetk, hgetne, row_get_eq_default habs]⟩
          · by_cases h3 : clue_number = 3
            · subst h3
              simp only [field_placeholders] at hmem
              simp at hmem
              obtain ⟨hk, hp⟩ := hmem
              subst hk; subst hp
              exact ⟨by decide, by simp [build_composite_clue, hgetk, hgetne, row_get_eq_default habs]⟩
            · simp [field_placeholders, hdog, hcat, h1, h2, h3] at hmem
      · by_cases hdin : category = "Dinosaurs"
        · subst hdin
          by_cases h1 : clue_number = 1
          · subst h1
            simp only [field_placeholders] at hmem
            simp at hmem
            rcases hmem with ⟨hk, hp⟩ | ⟨hk, hp⟩ <;> subst hk <;> subst hp <;>
              exact ⟨by decide, by simp [build_composite_clue, hgetk, hgetne, row_get_eq_default habs]⟩
          · by_cases h2 : clue_number = 2
            · subst h2
              simp only [field_placeholders] at hmem
              simp at hmem
              rcases hmem with ⟨hk, hp⟩ | ⟨hk, hp⟩ <;> subst hk <;> subst hp <;>
                exact ⟨by decide, by simp [build_composite_clue, hgetk, hgetne, row_get_eq_default habs]⟩
            · by_cases h3 : clue_number = 3
              · subst h3
                simp only [field_placeholders] at hmem
                simp at hmem
                obtain ⟨hk, hp⟩ := hmem
                subst hk; subst hp
                exact ⟨by decide, by simp [build_composite_clue, hgetk, hgetne, row_get_eq_default habs]⟩
              · simp [field_placeholders, hdog, hcat, hhor, h1, h2, h3] at hmem
        · simp [field_placeholders, hdog, hcat, hhor, hdin] at hmem

/-- Witness for C4 at the Dogs clue-1 Country field on a row lacking it. -/
theorem C4_placeholder_on_missing_key_witness :
    (("Country", "unknown") ∈ field_placeholders "Dogs" 1) ∧
    ((⟨[]⟩ : Row).cells.find? (fun q => q.1 == "Country") = none) ∧
    (("unknown" : String) ≠ "" ∧
      build_composite_clue "Dogs" ⟨[]⟩ 1 =
        build_composite_clue "Dogs" ((⟨[]⟩ : Row).insert "Country" (.str "unknown")) 1) :=
  ⟨by decide, rfl,
   C4_placeholder_on_missing_key "Dogs" 1 "Country" "unknown" ⟨[]⟩ (by decide) rfl⟩

/-- Counterexample for C4 as stated: a field key that is present with an
empty value is not replaced by its placeholder — the clue slot is left
blank, unlike the clue built with the placeholder substituted. -/
theorem C4_empty_field_counterexample :
    build_composite_clue "Dogs" ⟨[("Country", Val.str "")]⟩ 1 =
      "**Clue 1:** This species was bred in , unknown during the unknown time for use(s) like various purposes" ∧
    build_composite_clue "Dogs" ⟨[("Country", Val.str "")]⟩ 1 ≠
      build_composite_clue "Dogs"
        ((⟨[("Country", Val.str "")]⟩ : Row).insert "Country" (.str "unknown")) 1 := by
  exact ⟨by decide, by decide⟩

end GuessAnimal
